import Mathlib

/-!
# Verification of the OceanInsightUVVIS spectrum reader

Shallow embedding of the OceanInsightUVVIS repository (UV-vis spectrum file
reader) in Lean 4, together with theorems settling the specification claims.

The embedding follows `sourcecode/uvvis/uvvis_spectrum.py` (the `source/`
copy is line-for-line the same logic), `sourcecode/utilities/pintutils/unitmanager.py`
and `sourcecode/utilities/jsonutils/multiplejsonencoders.py`.

Python built-ins used by the source (`str.rstrip`, `str.split`, `str.lower`,
`int(...)`, `float(...)`, `datetime`/`pytz` pieces) are modelled by executable
Lean functions, restricted where noted to the plain ASCII/decimal inputs the
file format carries.
-/

namespace OceanInsight

/-! ## Python string primitives -/

/-- Characters stripped by Python `str.rstrip()` (ASCII whitespace). -/
def pyIsSpace (c : Char) : Bool :=
  c = ' ' || c = '\t' || c = '\n' || c = '\r' || c = '\x0b' || c = '\x0c'

/-- Python `line.rstrip()`: remove trailing whitespace. -/
def rstrip (s : String) : String :=
  ⟨(s.data.reverse.dropWhile pyIsSpace).reverse⟩

/-- ASCII lowercasing of one character, as Python `str.lower` acts on the
ASCII header values appearing in this file format. -/
def lowerChar (c : Char) : Char :=
  if 'A' ≤ c && c ≤ 'Z' then Char.ofNat (c.toNat + 32) else c

/-- Python `s.lower()` (ASCII fragment). -/
def pyLower (s : String) : String := ⟨s.data.map lowerChar⟩

/-- Split a character list at every character satisfying `p`, keeping empty
pieces, as Python `str.split(sep)` does for a single-character separator. -/
def splitIf (p : Char → Bool) : List Char → List Char → List (List Char)
  | [], acc => [acc.reverse]
  | c :: cs, acc =>
    if p c then acc.reverse :: splitIf p cs []
    else splitIf p cs (c :: acc)

/-- Python `s.split(sep='\t')`: split on every tab, keeping empty pieces. -/
def pySplitTab (s : String) : List String :=
  (splitIf (fun c => c = '\t') s.data []).map (fun cs => ⟨cs⟩)

/-- Python `s.split()`: split on whitespace runs, dropping empty pieces. -/
def pySplitWs (s : String) : List String :=
  ((splitIf pyIsSpace s.data []).map (fun cs => ⟨cs⟩)).filter (fun t => t ≠ "")

/-- Split a character list on every (non-overlapping, leftmost-first)
occurrence of the two-character separator `": "`, keeping empty pieces —
the behaviour of Python `line.split(sep=': ')` used for header lines. -/
def splitColonSpace : List Char → List Char → List (List Char)
  | [], acc => [acc.reverse]
  | [c], acc => [(c :: acc).reverse]
  | ':' :: ' ' :: cs, acc => acc.reverse :: splitColonSpace cs []
  | c :: cs, acc => splitColonSpace cs (c :: acc)

/-- Python `line.split(sep=': ')` on strings. -/
def pySplitColonSpace (s : String) : List String :=
  (splitColonSpace s.data []).map (fun cs => ⟨cs⟩)

/-- Numeric value of a list of decimal digits. -/
def digitsNat (cs : List Char) : Nat :=
  cs.foldl (fun a c => a * 10 + (c.toNat - 48)) 0

/-- Python `int(s)` on plain signed decimal literals (the only integer shape
occurring in this file format): optional sign followed by decimal digits. -/
def pyInt (s : String) : Option Int :=
  let (sign, body) : Int × List Char :=
    match s.data with
    | '-' :: rest => (-1, rest)
    | '+' :: rest => (1, rest)
    | cs => (1, cs)
  if body ≠ [] ∧ body.all Char.isDigit then some (sign * (digitsNat body : Int))
  else none

/-- Python `float(s)` on plain signed decimal literals (the shape of the
tab-separated numeric tokens and of `Integration Time (sec)`): optional sign,
decimal digits with an optional single decimal point, at least one digit.
The value is modelled as the exact rational the literal denotes; no claim
depends on binary floating-point rounding. -/
def pyFloat (s : String) : Option ℚ :=
  let (sign, body) : Int × List Char :=
    match s.data with
    | '-' :: rest => (-1, rest)
    | '+' :: rest => (1, rest)
    | cs => (1, cs)
  match splitIf (fun c => c = '.') body [] with
  | [ip] =>
    if ip ≠ [] ∧ ip.all Char.isDigit then some (mkRat (sign * (digitsNat ip : Int)) 1)
    else none
  | [ip, fp] =>
    if ¬(ip = [] ∧ fp = []) ∧ ip.all Char.isDigit ∧ fp.all Char.isDigit then
      some (mkRat (sign * ((digitsNat ip : Int) * (10 : Int) ^ fp.length + (digitsNat fp : Int)))
                  ((10 : Nat) ^ fp.length))
    else none
  | _ => none

/-! ## Ordered string-keyed mappings (Python `dict`) -/

/-- Insert into an insertion-ordered association list, overwriting the first
binding of the key in place — the observable behaviour of Python
`d[k] = v` on a `dict`. -/
def assocInsert {α : Type} (d : List (String × α)) (k : String) (v : α) :
    List (String × α) :=
  match d with
  | [] => [(k, v)]
  | p :: rest => if p.1 = k then (k, v) :: rest else p :: assocInsert rest k v

/-- Lookup in an association list (Python `d[k]` / `k in d`). -/
def assocGet {α : Type} (d : List (String × α)) (k : String) : Option α :=
  match d with
  | [] => none
  | p :: rest => if p.1 = k then some p.2 else assocGet rest k

/-! ## The line scanner (`UVVisSpectrum.read`, lines 121-146) -/

/-- Structural parse failures raised inside the line loop.  The source raises
a bare `Exception('Something wrong here')` for a header line whose `': '`
split does not have exactly two parts, and an unguarded `ValueError` for a bad
data line; the spec names these `MalformedHeaderLineError` and
`MalformedDataLineError`. -/
inductive ParseError where
  | malformedHeaderLine (line : String)
  | malformedDataLine (line : String)
deriving Repr, DecidableEq

/-- The loop state of `UVVisSpectrum.read`: the instance header dict being
populated, the two local value lists, and the `first_line` / `data_block`
flags. -/
structure ParseState where
  header : List (String × String)
  xValues : List ℚ
  yValues : List ℚ
  firstLine : Bool
  dataBlock : Bool
deriving Repr, DecidableEq

/-- The data-block marker line. -/
def sentinel : String := ">>>>>Begin Spectral Data<<<<<"

/-- One iteration of the `for line in f` loop (uvvis_spectrum.py lines
124-146).  Returns the state after the iteration and the error raised by it,
if any; an error leaves exactly the mutations made before the raise (for a
data line `x\t<bad>` the x value has already been appended when `float(y)`
raises, though the caller discards the local lists on that path). -/
def readLine (st : ParseState) (raw : String) : ParseState × Option ParseError :=
  let line := rstrip raw
  if st.firstLine then
    ({ st with header := assocInsert st.header "Description" line,
               firstLine := false }, none)
  else if line = "" then (st, none)
  else if line = sentinel then ({ st with dataBlock := true }, none)
  else if st.dataBlock then
    match pySplitTab line with
    | [xs, ys] =>
      match pyFloat xs with
      | none => (st, some (ParseError.malformedDataLine line))
      | some x =>
        match pyFloat ys with
        | none => ({ st with xValues := st.xValues ++ [x] },
                   some (ParseError.malformedDataLine line))
        | some y => ({ st with xValues := st.xValues ++ [x],
                               yValues := st.yValues ++ [y] }, none)
    | _ => (st, some (ParseError.malformedDataLine line))
  else
    match pySplitColonSpace line with
    | [k, v] => ({ st with header := assocInsert st.header k v }, none)
    | _ => (st, some (ParseError.malformedHeaderLine line))

/-- Run the loop over the file's lines, stopping at the first raised error. -/
def readLinesAux : ParseState → List String → ParseState × Option ParseError
  | st, [] => (st, none)
  | st, l :: ls =>
    match readLine st l with
    | (st', none) => readLinesAux st' ls
    | (st', some e) => (st', some e)

/-- The loop's starting state. -/
def initState : ParseState :=
  { header := [], xValues := [], yValues := [], firstLine := true, dataBlock := false }

/-! ## The unit label builder (`utilities/pintutils/unitmanager.py`) -/

/-- The dictionary returned by `unitmanager` (name, short unit string, axis
label, and the optional value / quantity entries). -/
structure AxisDescriptor where
  name : String
  unit : String
  label : String
  value : Option Int
  quantity : Option String
deriving Repr, DecidableEq

/-- `unitmanager(label, unit=None, value=None)` (unitmanager.py lines 50-71).
A `pint` unit is represented by its short-form string (`f"{unit:~}"`): `nm`
for `ureg.nm` and the empty string for `ureg.dimensionless`; passing `none`
models the Python default `None`, which the source replaces by
`ureg.dimensionless`.  Values are the integers the source's doctest uses; the
`if value:` test is Python truthiness, false exactly for `None` and `0`. -/
def unitmanager (label : String) (unit : Option String) (value : Option Int) :
    AxisDescriptor :=
  let unitStr := match unit with
    | none => ""
    | some u => u
  let axisLabel := if unitStr = "" then label else label ++ " (" ++ unitStr ++ ")"
  match value with
  | some v =>
    if v ≠ 0 then
      { name := label, unit := unitStr, label := axisLabel, value := some v,
        quantity := some (if unitStr = "" then toString v
                          else toString v ++ " " ++ unitStr) }
    else
      { name := label, unit := unitStr, label := axisLabel,
        value := none, quantity := none }
  | none =>
    { name := label, unit := unitStr, label := axisLabel,
      value := none, quantity := none }

/-! ## Date parsing (`UVVisSpectrum._date_to_isoformat`, lines 162-185) -/

/-- `datetime.strptime(s, "%b").month`: the month number of a three-letter
English month abbreviation, matched case-insensitively as `strptime` does. -/
def monthFromAbbrev (s : String) : Option Nat :=
  match pyLower s with
  | "jan" => some 1
  | "feb" => some 2
  | "mar" => some 3
  | "apr" => some 4
  | "may" => some 5
  | "jun" => some 6
  | "jul" => some 7
  | "aug" => some 8
  | "sep" => some 9
  | "oct" => some 10
  | "nov" => some 11
  | "dec" => some 12
  | _ => none

def isLeapYear (y : Nat) : Bool :=
  (y % 4 = 0 && y % 100 ≠ 0) || y % 400 = 0

def daysInMonth (y m : Nat) : Nat :=
  if m = 2 then (if isLeapYear y then 29 else 28)
  else if m = 4 ∨ m = 6 ∨ m = 9 ∨ m = 11 then 30
  else 31

/-- Value of an exactly-two-digit decimal token. -/
def twoDigit (s : String) : Option Nat :=
  match s.data with
  | [a, b] =>
    if a.isDigit && b.isDigit then some ((a.toNat - 48) * 10 + (b.toNat - 48))
    else none
  | _ => none

/-- `datetime.time.fromisoformat`: accepts `HH`, `HH:MM` or `HH:MM:SS`, each
component exactly two digits and in range. -/
def timeFromIsoformat (s : String) : Option (Nat × Nat × Nat) :=
  match (splitIf (fun c => c = ':') s.data []).map (fun cs => (⟨cs⟩ : String)) with
  | [h] =>
    match twoDigit h with
    | some hh => if hh < 24 then some (hh, 0, 0) else none
    | none => none
  | [h, m] =>
    match twoDigit h, twoDigit m with
    | some hh, some mm => if hh < 24 ∧ mm < 60 then some (hh, mm, 0) else none
    | _, _ => none
  | [h, m, s2] =>
    match twoDigit h, twoDigit m, twoDigit s2 with
    | some hh, some mm, some ss =>
      if hh < 24 ∧ mm < 60 ∧ ss < 60 then some (hh, mm, ss) else none
    | _, _, _ => none
  | _ => none

/-- `pytz.timezone(name)` restricted to the static (fixed-offset, no-DST)
zone names of the tz database, mapped to the UTC offset in minutes their
tzinfo contributes when attached directly by `datetime.combine`: the
GMT/UTC aliases, the fixed North-American zones `EST`/`MST`/`HST`, and the
`Etc/GMT±N` family (whose POSIX-style sign is inverted: `Etc/GMT+5` is five
hours behind UTC).  Region zones such as `Europe/London` — recognized by
pytz but with a directly-attached offset equal to their first (pre-1900 LMT)
transition — are outside this table, so statements about unrecognized names
are made over an abstract database instead (see `dateToIsoformatWith`),
never by appeal to a name's absence from this table. -/
def pytzTimezone (name : String) : Option Int :=
  match name with
  | "GMT" | "GMT0" | "GMT+0" | "GMT-0" | "Greenwich" | "UCT" | "UTC"
  | "Universal" | "Zulu" => some 0
  | "Etc/GMT" | "Etc/GMT0" | "Etc/GMT+0" | "Etc/GMT-0" | "Etc/UCT" | "Etc/UTC"
  | "Etc/Greenwich" | "Etc/Universal" | "Etc/Zulu" => some 0
  | "EST" => some (-300)
  | "MST" => some (-420)
  | "HST" => some (-600)
  | "Etc/GMT+1" => some (-60)
  | "Etc/GMT+2" => some (-120)
  | "Etc/GMT+3" => some (-180)
  | "Etc/GMT+4" => some (-240)
  | "Etc/GMT+5" => some (-300)
  | "Etc/GMT+6" => some (-360)
  | "Etc/GMT+7" => some (-420)
  | "Etc/GMT+8" => some (-480)
  | "Etc/GMT+9" => some (-540)
  | "Etc/GMT+10" => some (-600)
  | "Etc/GMT+11" => some (-660)
  | "Etc/GMT+12" => some (-720)
  | "Etc/GMT-1" => some 60
  | "Etc/GMT-2" => some 120
  | "Etc/GMT-3" => some 180
  | "Etc/GMT-4" => some 240
  | "Etc/GMT-5" => some 300
  | "Etc/GMT-6" => some 360
  | "Etc/GMT-7" => some 420
  | "Etc/GMT-8" => some 480
  | "Etc/GMT-9" => some 540
  | "Etc/GMT-10" => some 600
  | "Etc/GMT-11" => some 660
  | "Etc/GMT-12" => some 720
  | "Etc/GMT-13" => some 780
  | "Etc/GMT-14" => some 840
  | _ => none

def pad2 (n : Nat) : String :=
  if n < 10 then "0" ++ toString n else toString n

def pad4 (n : Nat) : String :=
  if n < 10 then "000" ++ toString n
  else if n < 100 then "00" ++ toString n
  else if n < 1000 then "0" ++ toString n
  else toString n

/-- The `±HH:MM` UTC-offset suffix that `datetime.isoformat()` prints for an
aware datetime whose offset is a whole number of minutes. -/
def offsetStr (minutes : Int) : String :=
  if minutes < 0 then
    "-" ++ pad2 ((-minutes).toNat / 60) ++ ":" ++ pad2 ((-minutes).toNat % 60)
  else
    "+" ++ pad2 (minutes.toNat / 60) ++ ":" ++ pad2 (minutes.toNat % 60)

/-- `UVVisSpectrum._date_to_isoformat` on the header's `Date` value
(lines 172-185), over an abstract timezone database `tzdb` standing for
pytz's zone-name lookup (`none` = `pytz.UnknownTimeZoneError`):
whitespace-split the value, read the year from token 5, the month
abbreviation from token 1, the day from token 2, the time from token 3 and
the timezone name from token 4 (token 0, the weekday, is never used), then
render `datetime.combine(date, time, tz).isoformat()`.  `none` models the
unguarded exceptions (`IndexError`, `ValueError`,
`pytz.UnknownTimeZoneError`) the spec groups as `DateFormatError`;
`date(year, month, day)` validates its ranges. -/
def dateToIsoformatWith (tzdb : String → Option Int) (s : String) : Option String :=
  let parts := pySplitWs s
  match parts[5]?, parts[1]?, parts[2]?, parts[3]?, parts[4]? with
  | some ys, some ms, some ds, some ts, some zs =>
    match pyInt ys, monthFromAbbrev ms, pyInt ds with
    | some year, some month, some day =>
      if 1 ≤ year ∧ year ≤ 9999 ∧ 1 ≤ day ∧ day ≤ (daysInMonth year.toNat month : Int) then
        match timeFromIsoformat ts, tzdb zs with
        | some (hh, mm, ss), some off =>
          some (pad4 year.toNat ++ "-" ++ pad2 month ++ "-" ++ pad2 day.toNat ++ "T" ++
                pad2 hh ++ ":" ++ pad2 mm ++ ":" ++ pad2 ss ++ offsetStr off)
        | _, _ => none
      else none
    | _, _, _ => none
  | _, _, _, _, _ => none

/-- `_date_to_isoformat` as the program runs it, with pytz's database
(modelled by `pytzTimezone` on its static zones). -/
def dateToIsoformat (s : String) : Option String :=
  dateToIsoformatWith pytzTimezone s

/-! ## Metadata extraction (`UVVisSpectrum._extract_metadata`, lines 187-262) -/

/-- Values stored in the metadata dict: strings, Python ints and bools, a
`pint` quantity (magnitude and short unit string), a float (for the observed
wavelength range), an axis-descriptor dict, or a nested dict of strings
(`vendor_header`, `instrument`). -/
inductive MetaValue where
  | str (s : String)
  | int (n : Int)
  | bool (b : Bool)
  | rat (q : ℚ)
  | quantity (magnitude : ℚ) (unit : String)
  | axis (a : AxisDescriptor)
  | strDict (d : List (String × String))
deriving Repr, DecidableEq

abbrev Header := List (String × String)
abbrev Metadata := List (String × MetaValue)

/-- Unguarded exceptions that `_extract_metadata` can raise: a `ValueError`
from `int(...)` / `float(...)`, or the date errors the spec groups as
`DateFormatError`. -/
inductive MetadataError where
  | valueError
  | dateFormatError
deriving Repr, DecidableEq

/-- Thread a metadata-building step after a possibly-failed prefix: once an
exception is raised, the dict stays as it was at the raise. -/
def mdStep (acc : Metadata × Option MetadataError)
    (f : Metadata → Metadata × Option MetadataError) : Metadata × Option MetadataError :=
  match acc with
  | (md, none) => f md
  | (md, some e) => (md, some e)

/-- `if srcKey in header: metadata[dstKey] = int(header[srcKey])`. -/
def intField (header : Header) (srcKey dstKey : String) (md : Metadata) :
    Metadata × Option MetadataError :=
  match assocGet header srcKey with
  | none => (md, none)
  | some s =>
    match pyInt s with
    | some n => (assocInsert md dstKey (MetaValue.int n), none)
    | none => (md, some MetadataError.valueError)

/-- The boolean fields (lines 224-228 and 233-237): the header value is
lowercased and compared to `'false'`; anything else means `True`. -/
def boolField (header : Header) (key : String) (md : Metadata) : Metadata :=
  match assocGet header key with
  | none => md
  | some s => assocInsert md key (MetaValue.bool (pyLower s ≠ "false"))

/-- `dwell-time` (lines 219-222): `ureg.Quantity(float(value), ureg.sec)`;
the short form of `ureg.sec` is `"s"`. -/
def dwellField (header : Header) (md : Metadata) : Metadata × Option MetadataError :=
  match assocGet header "Integration Time (sec)" with
  | none => (md, none)
  | some s =>
    match pyFloat s with
    | some q => (assocInsert md "dwell-time" (MetaValue.quantity q "s"), none)
    | none => (md, some MetadataError.valueError)

/-- The abscissa axis descriptor (lines 243-251): `Wavelengths`
(case-insensitively) means wavelength in nm, any other `XAxis mode` value is
used verbatim as a dimensionless label, and a missing key defaults to `x`. -/
def xAxisDescriptor (header : Header) : AxisDescriptor :=
  match assocGet header "XAxis mode" with
  | some v =>
    if pyLower v = "wavelengths" then unitmanager "wavelength" (some "nm") none
    else unitmanager v none none
  | none => unitmanager "x" none none

/-- `acquisition-date` (lines 261-262). -/
def dateField (header : Header) (md : Metadata) : Metadata × Option MetadataError :=
  match assocGet header "Date" with
  | none => (md, none)
  | some s =>
    match dateToIsoformat s with
    | some iso => (assocInsert md "acquisition-date" (MetaValue.str iso), none)
    | none => (md, some MetadataError.dateFormatError)

/-- The fields written before the axis block (lines 199-237): vendor header,
technique constants, instrument dict, `Trigger mode`, `scans`, `dwell-time`,
the two boolean flags and `Boxcar width`. -/
def extractPre (header : Header) : Metadata × Option MetadataError :=
  let md : Metadata := assocInsert [] "vendor_header" (MetaValue.strDict header)
  let md := assocInsert md "technique" (MetaValue.str "UV-vis spectroscopy")
  let md := assocInsert md "technique-iri"
    (MetaValue.str "http://purl.obolibrary.org/obo/CHMO_0000292")
  let instr : List (String × String) :=
    [("vendor", "Ocean Insight")] ++
      (match assocGet header "Spectrometer" with
       | some s => [("spectrometer", s)]
       | none => [])
  let md := assocInsert md "instrument" (MetaValue.strDict instr)
  mdStep (intField header "Trigger mode" "Trigger mode" md) (fun md =>
  mdStep (intField header "Scans to average" "scans" md) (fun md =>
  mdStep (dwellField header md) (fun md =>
  let md := boolField header "Nonlinearity correction enabled" md
  mdStep (intField header "Boxcar width" "Boxcar width" md) (fun md =>
  (boolField header "Storing dark spectrum" md, none)))))

/-- The fields written from the axis block onward (lines 243-262): abscissa,
ordinate, `number-of-data-points` and `acquisition-date`. -/
def extractPost (header : Header) (md : Metadata) : Metadata × Option MetadataError :=
  let md := assocInsert md "abscissa" (MetaValue.axis (xAxisDescriptor header))
  let md := assocInsert md "ordinate" (MetaValue.axis (unitmanager "absorbance" none none))
  mdStep (intField header "Number of Pixels in Spectrum" "number-of-data-points" md)
    (fun md => dateField header md)

/-- `UVVisSpectrum._extract_metadata`: the metadata dict built from the raw
header, with the error (if any) raised mid-way; on an error the dict holds
exactly the fields written before the raise. -/
def extract_metadata (header : Header) : Metadata × Option MetadataError :=
  mdStep (extractPre header) (extractPost header)

/-! ## The aggregate (`UVVisSpectrum.__init__` / `read`, lines 37-160) -/

/-- The instance state: `_filename`, `_metadata`, `_header` and `_data` (the
pandas DataFrame content, `list(zip(x_values, y_values))`). -/
structure UVVisSpectrum where
  filename : Option String
  metadata : Metadata
  header : Header
  data : List (ℚ × ℚ)
deriving Repr, DecidableEq

/-- Exceptions that escape `read` to the caller.  `FileNotFoundError` is NOT
among them: the source catches it and prints (lines 159-160).  `typeError`
models `Path(None)` when no filename is available; `indexError` models
`x_values[0]` on an empty series (line 156). -/
inductive ReadError where
  | malformedHeaderLine (line : String)
  | malformedDataLine (line : String)
  | metadataError (e : MetadataError)
  | indexError
  | typeError
deriving Repr, DecidableEq

def wrapParseError : ParseError → ReadError
  | ParseError.malformedHeaderLine l => ReadError.malformedHeaderLine l
  | ParseError.malformedDataLine l => ReadError.malformedDataLine l

/-- The outcome of one `read` call: the instance state afterwards, the
exception propagated to the caller (if any), and whether the
`except FileNotFoundError: print(err)` handler ran. -/
structure ReadResult where
  state : UVVisSpectrum
  error : Option ReadError
  printedFileError : Bool
deriving Repr, DecidableEq

/-- `UVVisSpectrum.read(filename)` (lines 107-160) over an abstract file
system `fs` mapping a filename to its list of lines (`none` = the file does
not exist, so `open` raises `FileNotFoundError`).

Steps, in source order: adopt a passed (truthy) filename; `Path(None)`
raises `TypeError` when no filename is available; reset metadata, header and
data; open the file — on `FileNotFoundError` print and return normally; run
the line loop; run `_extract_metadata`; store the DataFrame
`list(zip(x_values, y_values))`; finally write
`lowest-observed-wavelength` / `highest-observed-wavelength` from
`x_values[0]` / `x_values[-1]`, an `IndexError` when the series is empty. -/
def read (self : UVVisSpectrum) (fs : String → Option (List String))
    (filenameArg : Option String) : ReadResult :=
  let self := match filenameArg with
    | some f => if f = "" then self else { self with filename := some f }
    | none => self
  match self.filename with
  | none => { state := self, error := some ReadError.typeError, printedFileError := false }
  | some fname =>
    let self := { self with metadata := [], header := [], data := [] }
    match fs fname with
    | none => { state := self, error := none, printedFileError := true }
    | some lines =>
      match readLinesAux initState lines with
      | (pst, some e) =>
        { state := { self with header := pst.header },
          error := some (wrapParseError e), printedFileError := false }
      | (pst, none) =>
        let self := { self with header := pst.header }
        match extract_metadata pst.header with
        | (md, some e) =>
          { state := { self with metadata := md },
            error := some (ReadError.metadataError e), printedFileError := false }
        | (md, none) =>
          let self := { self with metadata := md, data := pst.xValues.zip pst.yValues }
          match pst.xValues.head?, pst.xValues.getLast? with
          | some x0, some xl =>
            let md := assocInsert md "lowest-observed-wavelength" (MetaValue.rat x0)
            let md := assocInsert md "highest-observed-wavelength" (MetaValue.rat xl)
            { state := { self with metadata := md }, error := none, printedFileError := false }
          | _, _ =>
            { state := self, error := some ReadError.indexError, printedFileError := false }

/-- A fresh instance as built by the constructor before its `read` call. -/
def freshSpectrum : UVVisSpectrum :=
  { filename := none, metadata := [], header := [], data := [] }

/-- Read a single concrete file: a fresh instance, a file system holding one
file named `"file"` with the given lines, and `read("file")`. -/
def readFile (lines : List String) : ReadResult :=
  read freshSpectrum (fun f => if f = "file" then some lines else none) (some "file")

/-- `read("missing")` against a file system with no files at all. -/
def readMissing : ReadResult :=
  read freshSpectrum (fun _ => none) (some "missing")

/-! ## The JSON encoder chain (`utilities/jsonutils/multiplejsonencoders.py`) -/

/-- `MultipleJsonEncoders.default(obj)` (lines 29-38): try each encoder in
the listed order; an encoder either produces a JSON-representable value
(`some`) or raises `TypeError` (`none`), in which case the next one is
tried; when every encoder has refused, re-raise `TypeError` (`none` overall —
the spec's `UnencodableValueError`). -/
def multiEncodersDefault {α β : Type} (encoders : List (α → Option β)) (obj : α) :
    Option β :=
  match encoders with
  | [] => none
  | e :: rest =>
    match e obj with
    | some v => some v
    | none => multiEncodersDefault rest obj

/-! ## Definitions following the spec's words, for comparison with the code -/

/-- Follows the spec's words for the header-line rule: split the line into
exactly two parts at the FIRST occurrence of the literal separator `": "`
(`none` when the separator does not occur).  For comparison with the code's
`line.split(sep=': ')`, which splits at every occurrence. -/
def splitOnFirstColonSpace (s : String) : Option (String × String) :=
  match splitColonSpace s.data [] with
  | k :: piece :: more =>
    some (⟨k⟩, String.intercalate ": " ((piece :: more).map (fun cs => (⟨cs⟩ : String))))
  | _ => none

/-- Follows the spec's words for the series-length rule: "the count of lines
between the marker and EOF" — the number of lines strictly after the first
line that strips to the marker. -/
def linesBetweenMarkerAndEOF : List String → Nat
  | [] => 0
  | l :: ls => if rstrip l = sentinel then ls.length else linesBetweenMarkerAndEOF ls

/-- The lines strictly after the first marker line (the first file line is
always consumed as the `Description`, even if it equals the marker). -/
def afterMarker : List String → List String
  | [] => []
  | l :: ls => if rstrip l = sentinel then ls else afterMarker ls

/-- A line that the data-block mode actually parses as a sample: it strips to
something non-blank that is not the marker itself. -/
def isDataLine (l : String) : Bool :=
  ¬(rstrip l = "" ∨ rstrip l = sentinel)

/-- The amended series-length count: the number of non-blank, non-marker
lines after the first marker line, skipping the first file line. -/
def specDataLineCount (lines : List String) : Nat :=
  match lines with
  | [] => 0
  | _ :: rest => ((afterMarker rest).filter isDataLine).length

/-- The number of samples the loop appends over a list of lines, given the
current `data_block` flag, on an error-free run (mirrors the loop's control
flow; used as the induction invariant relating the scanner to
`specDataLineCount`). -/
def phaseCount : Bool → List String → Nat
  | _, [] => 0
  | db, l :: ls =>
    if rstrip l = "" then phaseCount db ls
    else if rstrip l = sentinel then phaseCount true ls
    else if db then phaseCount db ls + 1
    else phaseCount db ls

/-! ## Concrete fixtures used by counterexamples and witnesses -/

/-- The scanner state after a first line `desc`: header mode, nothing parsed
yet. -/
def headerModeState : ParseState :=
  { header := [("Description", "desc")], xValues := [], yValues := [],
    firstLine := false, dataBlock := false }

/-- An instance holding a previously loaded spectrum. -/
def prevLoaded : UVVisSpectrum :=
  { filename := some "old",
    metadata := [("technique", MetaValue.str "UV-vis spectroscopy")],
    header := [("Description", "old desc")],
    data := [(1, 2)] }

/-- Re-reading a file whose second line `garbage` is a malformed header line,
on an instance holding a previous spectrum. -/
def rereadBadHeader : ReadResult :=
  read prevLoaded (fun f => if f = "new" then some ["newdesc", "garbage"] else none)
    (some "new")

/-- A file whose data block contains a blank line between two samples. -/
def blankInBlockLines : List String :=
  ["desc", ">>>>>Begin Spectral Data<<<<<", "1.0\t2.0", "", "3.0\t4.0"]

/-- A scanner state inside the data block, with one sample already read. -/
def inBlockState : ParseState :=
  { header := [("Description", "desc")], xValues := [1], yValues := [2],
    firstLine := false, dataBlock := true }

/-! ## Helper lemmas -/

theorem assocGet_insert_self {α : Type} (d : List (String × α)) (k : String) (v : α) :
    assocGet (assocInsert d k v) k = some v := by
  induction d with
  | nil => simp [assocInsert, assocGet]
  | cons p rest ih =>
    by_cases h : p.1 = k
    · simp [assocInsert, assocGet, h]
    · simp [assocInsert, assocGet, h, ih]

theorem assocGet_insert_ne {α : Type} (d : List (String × α)) (k k' : String) (v : α)
    (h : k' ≠ k) : assocGet (assocInsert d k v) k' = assocGet d k' := by
  induction d with
  | nil => simp [assocInsert, assocGet, Ne.symm h]
  | cons p rest ih =>
    by_cases hp : p.1 = k
    · simp [assocInsert, assocGet, hp, h, Ne.symm h]
    · by_cases hp' : p.1 = k'
      · simp [assocInsert, assocGet, hp, hp', h]
      · simp [assocInsert, assocGet, hp, hp', ih]

theorem readLine_first (st : ParseState) (l : String) (h : st.firstLine = true) :
    readLine st l =
      ({ st with header := assocInsert st.header "Description" (rstrip l),
                 firstLine := false }, none) := by
  simp [readLine, h]

theorem readLine_blank (st : ParseState) (l : String) (h1 : st.firstLine = false)
    (h2 : rstrip l = "") : readLine st l = (st, none) := by
  simp [readLine, h1, h2]

theorem readLine_sentinel (st : ParseState) (l : String) (h1 : st.firstLine = false)
    (h2 : rstrip l = sentinel) :
    readLine st l = ({ st with dataBlock := true }, none) := by
  have h3 : sentinel ≠ "" := by decide
  simp [readLine, h1, h2, h3]

/-- Classification of an error-free loop iteration after the first line:
the line is blank and skipped, is the marker, is a well-formed data line, or
is a well-formed header line. -/
theorem readLine_ok_cases (st : ParseState) (l : String) (st2 : ParseState)
    (h1 : st.firstLine = false) (h : readLine st l = (st2, none)) :
    (rstrip l = "" ∧ st2 = st) ∨
    (rstrip l ≠ "" ∧ rstrip l = sentinel ∧ st2 = { st with dataBlock := true }) ∨
    (rstrip l ≠ "" ∧ rstrip l ≠ sentinel ∧ st.dataBlock = true ∧
      ∃ x y, st2 = { st with xValues := st.xValues ++ [x], yValues := st.yValues ++ [y] }) ∨
    (rstrip l ≠ "" ∧ rstrip l ≠ sentinel ∧ st.dataBlock = false ∧
      ∃ k v, st2 = { st with header := assocInsert st.header k v }) := by
  by_cases hb : rstrip l = ""
  · rw [readLine_blank st l h1 hb] at h
    exact Or.inl ⟨hb, ((Prod.mk.injEq _ _ _ _).mp h).1.symm⟩
  · by_cases hs : rstrip l = sentinel
    · rw [readLine_sentinel st l h1 hs] at h
      exact Or.inr (Or.inl ⟨hb, hs, ((Prod.mk.injEq _ _ _ _).mp h).1.symm⟩)
    · cases hdb : st.dataBlock with
      | true =>
        refine Or.inr (Or.inr (Or.inl ⟨hb, hs, rfl, ?_⟩))
        simp only [readLine, h1, hb, hs, hdb, if_false, if_true, ite_false, ite_true,
          Bool.false_eq_true] at h
        split at h
        · split at h
          · exact absurd ((Prod.mk.injEq _ _ _ _).mp h).2 (by simp)
          · split at h
            · exact absurd ((Prod.mk.injEq _ _ _ _).mp h).2 (by simp)
            · exact ⟨_, _, by
                rw [← ((Prod.mk.injEq _ _ _ _).mp h).1]
                simp [h1]
                exact ⟨rfl, rfl⟩⟩
        · exact absurd ((Prod.mk.injEq _ _ _ _).mp h).2 (by simp)
      | false =>
        refine Or.inr (Or.inr (Or.inr ⟨hb, hs, rfl, ?_⟩))
        simp only [readLine, h1, hb, hs, hdb, if_false, if_true, ite_false, ite_true,
          Bool.false_eq_true] at h
        split at h
        · exact ⟨_, _, by
            rw [← ((Prod.mk.injEq _ _ _ _).mp h).1]
            simp [h1]
            rfl⟩
        · exact absurd ((Prod.mk.injEq _ _ _ _).mp h).2 (by simp)

theorem phaseCount_true (ls : List String) :
    phaseCount true ls = (ls.filter isDataLine).length := by
  induction ls with
  | nil => simp [phaseCount]
  | cons l ls ih =>
    by_cases h1 : rstrip l = ""
    · simp [phaseCount, h1, isDataLine, ih]
    · by_cases h2 : rstrip l = sentinel
      · simp [phaseCount, h1, h2, isDataLine, ih]
      · simp [phaseCount, h1, h2, isDataLine, ih]

theorem phaseCount_false (ls : List String) :
    phaseCount false ls = phaseCount true (afterMarker ls) := by
  induction ls with
  | nil => simp [phaseCount, afterMarker]
  | cons l ls ih =>
    by_cases h1 : rstrip l = ""
    · have h2 : ("" : String) ≠ sentinel := by decide
      simp [phaseCount, afterMarker, h1, h2, ih]
    · by_cases h2 : rstrip l = sentinel
      · have h3 : sentinel ≠ "" := by decide
        simp [phaseCount, afterMarker, h1, h2, h3]
      · simp [phaseCount, afterMarker, h1, h2, ih]

/-- Error-free scanning appends exactly `phaseCount` samples to each of the
two value lists (so always the same number to both). -/
theorem readLinesAux_length (ls : List String) : ∀ st st' : ParseState,
    st.firstLine = false → readLinesAux st ls = (st', none) →
    st'.xValues.length = st.xValues.length + phaseCount st.dataBlock ls ∧
    st'.yValues.length = st.yValues.length + phaseCount st.dataBlock ls := by
  induction ls with
  | nil =>
    intro st st' h1 h2
    simp only [readLinesAux, Prod.mk.injEq] at h2
    obtain ⟨h2, -⟩ := h2
    subst h2
    simp [phaseCount]
  | cons l ls ih =>
    intro st st' h1 h2
    simp only [readLinesAux] at h2
    rcases hrl : readLine st l with ⟨st2, e⟩
    rw [hrl] at h2
    cases e with
    | some e' => simp at h2
    | none =>
      have hfl : st2.firstLine = false := by
        rcases readLine_ok_cases st l st2 h1 hrl with ⟨-, rfl⟩ | ⟨-, -, rfl⟩ |
          ⟨-, -, -, x, y, rfl⟩ | ⟨-, -, -, k, v, rfl⟩ <;> simpa using h1
      have hlen := ih st2 st' hfl h2
      rcases readLine_ok_cases st l st2 h1 hrl with ⟨hb, rfl⟩ | ⟨hb, hs, rfl⟩ |
        ⟨hb, hs, hdb, x, y, rfl⟩ | ⟨hb, hs, hdb, k, v, rfl⟩
      · simpa [phaseCount, hb] using hlen
      · simpa [phaseCount, hb, hs] using hlen
      · simp only [phaseCount, if_neg hb, if_neg hs, hdb, if_true] at hlen ⊢
        simp at hlen
        omega
      · simp only [phaseCount, if_neg hb, if_neg hs, hdb, Bool.false_eq_true,
          if_false] at hlen ⊢
        simpa using hlen

/-- If no line of the file strips to the marker, an error-free scan stays in
header mode and appends nothing to the value lists. -/
theorem readLinesAux_no_marker (ls : List String) : ∀ st st' : ParseState,
    st.dataBlock = false → (∀ l ∈ ls, rstrip l ≠ sentinel) →
    readLinesAux st ls = (st', none) →
    st'.xValues = st.xValues ∧ st'.yValues = st.yValues ∧ st'.dataBlock = false := by
  induction ls with
  | nil =>
    intro st st' h1 h2 h3
    simp only [readLinesAux, Prod.mk.injEq] at h3
    obtain ⟨h3, -⟩ := h3
    subst h3
    exact ⟨rfl, rfl, h1⟩
  | cons l ls ih =>
    intro st st' h1 h2 h3
    have hl : rstrip l ≠ sentinel := h2 l (by simp)
    have h2' : ∀ l' ∈ ls, rstrip l' ≠ sentinel := fun l' hm => h2 l' (by simp [hm])
    simp only [readLinesAux] at h3
    rcases hrl : readLine st l with ⟨st2, e⟩
    rw [hrl] at h3
    cases e with
    | some e' => simp at h3
    | none =>
      cases hfl : st.firstLine with
      | true =>
        rw [readLine_first st l hfl] at hrl
        have hst2 := ((Prod.mk.injEq _ _ _ _).mp hrl).1
        have := ih st2 st' (by rw [← hst2]; exact h1) h2' h3
        rw [← hst2] at this
        simpa using this
      | false =>
        rcases readLine_ok_cases st l st2 hfl hrl with ⟨hb, rfl⟩ | ⟨hb, hs, rfl⟩ |
          ⟨hb, hs, hdb, x, y, rfl⟩ | ⟨hb, hs, hdb, k, v, rfl⟩
        · exact ih _ st' h1 h2' h3
        · exact absurd hs hl
        · rw [h1] at hdb; exact absurd hdb (by simp)
        · have := ih _ st' (by simpa using h1) h2' h3
          simpa using this

/-- Every field written by `extractPost` after the abscissa uses a different
key, so the abscissa descriptor in the resulting metadata is always
`xAxisDescriptor header` — even when a later field raises. -/
theorem extractPost_abscissa (header : Header) (md : Metadata) :
    assocGet (extractPost header md).1 "abscissa" =
      some (MetaValue.axis (xAxisDescriptor header)) := by
  rcases h1 : assocGet header "Number of Pixels in Spectrum" with _ | s
  · rcases h2 : assocGet header "Date" with _ | d
    · simp only [extractPost, mdStep, intField, dateField, h1, h2]
      rw [assocGet_insert_ne _ _ _ _ (by decide), assocGet_insert_self]
    · rcases h3 : dateToIsoformat d with _ | iso
      · simp only [extractPost, mdStep, intField, dateField, h1, h2, h3]
        rw [assocGet_insert_ne _ _ _ _ (by decide), assocGet_insert_self]
      · simp only [extractPost, mdStep, intField, dateField, h1, h2, h3]
        rw [assocGet_insert_ne _ _ _ _ (by decide),
          assocGet_insert_ne _ _ _ _ (by decide), assocGet_insert_self]
  · rcases hn : pyInt s with _ | n
    · simp only [extractPost, mdStep, intField, dateField, h1, hn]
      rw [assocGet_insert_ne _ _ _ _ (by decide), assocGet_insert_self]
    · rcases h2 : assocGet header "Date" with _ | d
      · simp only [extractPost, mdStep, intField, dateField, h1, hn, h2]
        rw [assocGet_insert_ne _ _ _ _ (by decide),
          assocGet_insert_ne _ _ _ _ (by decide), assocGet_insert_self]
      · rcases h3 : dateToIsoformat d with _ | iso
        · simp only [extractPost, mdStep, intField, dateField, h1, hn, h2, h3]
          rw [assocGet_insert_ne _ _ _ _ (by decide),
            assocGet_insert_ne _ _ _ _ (by decide), assocGet_insert_self]
        · simp only [extractPost, mdStep, intField, dateField, h1, hn, h2, h3]
          rw [assocGet_insert_ne _ _ _ _ (by decide), assocGet_insert_ne _ _ _ _ (by decide),
            assocGet_insert_ne _ _ _ _ (by decide), assocGet_insert_self]

/-! ## The claims -/

/-- C1 (counterexample): the claim says a header line whose value itself
contains `": "` still yields one key/value pair, because the split happens at
the first occurrence only.  On the header line `a: b: c`, splitting at the
first occurrence does yield exactly two parts (`a` and `b: c`), yet the code
raises `MalformedHeaderLineError`, because `line.split(sep=': ')` splits at
every occurrence and produces three parts. -/
theorem claim_header_split_counterexample :
    (readLine headerModeState "a: b: c").2 =
      some (ParseError.malformedHeaderLine "a: b: c") ∧
    splitOnFirstColonSpace "a: b: c" = some ("a", "b: c") := by decide

/-- C1 (amended): for every non-blank header line before the data-block
marker, the code splits the line at EVERY occurrence of `": "` and fails with
`MalformedHeaderLineError` exactly when that split does not yield two parts
(so a line whose value contains `": "` fails); when it yields exactly two
parts they become the key/value pair. -/
theorem claim_header_split_amended (st : ParseState) (l : String)
    (h1 : st.firstLine = false) (h2 : st.dataBlock = false)
    (h3 : rstrip l ≠ "") (h4 : rstrip l ≠ sentinel) :
    ((readLine st l).2 = some (ParseError.malformedHeaderLine (rstrip l)) ↔
      (pySplitColonSpace (rstrip l)).length ≠ 2) ∧
    (∀ k v, pySplitColonSpace (rstrip l) = [k, v] →
      readLine st l = ({ st with header := assocInsert st.header k v }, none)) := by
  constructor
  · simp only [readLine, h1, h2, h3, h4, if_false, ite_false, Bool.false_eq_true]
    rcases hsp : pySplitColonSpace (rstrip l) with _ | ⟨k, _ | ⟨v, _ | _⟩⟩ <;> simp [hsp]
  · intro k v hkv
    simp [readLine, h1, h2, h3, h4, hkv]

theorem claim_header_split_amended_witness :
    ((readLine headerModeState "garbage").2 =
        some (ParseError.malformedHeaderLine (rstrip "garbage")) ↔
      (pySplitColonSpace (rstrip "garbage")).length ≠ 2) ∧
    (∀ k v, pySplitColonSpace (rstrip "garbage") = [k, v] →
      readLine headerModeState "garbage" =
        ({ headerModeState with header := assocInsert headerModeState.header k v }, none)) :=
  claim_header_split_amended headerModeState "garbage"
    (by decide) (by decide) (by decide) (by decide)

/-- C4 (code_bug): on a missing file, `read` catches `FileNotFoundError`,
prints it, and returns normally, leaving an apparently-successful instance
with empty header, metadata and data — the caller receives no typed error to
branch on, contradicting the claim (and the method's own docstring, which
says the error is raised). -/
theorem claim_file_error_behavior :
    readMissing.error = none ∧ readMissing.printedFileError = true ∧
    readMissing.state.header = [] ∧ readMissing.state.metadata = [] ∧
    readMissing.state.data = [] ∧ readMissing.state.filename = some "missing" := by
  decide

/-- C9 (counterexample): the claim says every call that supplies a numeric
value yields `value` and `quantity` entries.  Supplying the numeric value `0`
yields neither, because the source guards with Python truthiness
(`if value:`), which is false for `0`. -/
theorem claim_unit_value_counterexample :
    (unitmanager "wavelength" (some "nm") (some 0)).value = none ∧
    (unitmanager "wavelength" (some "nm") (some 0)).quantity = none := by decide

/-- C9 (amended): when the supplied numeric value is nonzero (truthy), the
descriptor carries `value` equal to it and `quantity` equal to `"{value}"`
for an empty unit string and `"{value} {unit}"` otherwise; no value, or the
value `0`, yields neither entry — so `quantity` is present only when a
nonzero numeric value was supplied. -/
theorem claim_unit_value_amended (label : String) (unit : Option String) (v : Int)
    (h : v ≠ 0) :
    (unitmanager label unit (some v)).value = some v ∧
    (unitmanager label unit (some v)).quantity =
      some (if (unitmanager label unit (some v)).unit = "" then toString v
            else toString v ++ " " ++ (unitmanager label unit (some v)).unit) ∧
    (unitmanager label unit none).value = none ∧
    (unitmanager label unit none).quantity = none ∧
    (unitmanager label unit (some 0)).value = none ∧
    (unitmanager label unit (some 0)).quantity = none := by
  cases unit with
  | none => simp [unitmanager, h]
  | some u => by_cases hu : u = "" <;> simp [unitmanager, h, hu]

theorem claim_unit_value_amended_witness :
    (unitmanager "wavelength" (some "nm") (some 280)).value = some 280 ∧
    (unitmanager "wavelength" (some "nm") (some 280)).quantity =
      some (if (unitmanager "wavelength" (some "nm") (some 280)).unit = "" then
              toString (280 : Int)
            else toString (280 : Int) ++ " " ++
              (unitmanager "wavelength" (some "nm") (some 280)).unit) ∧
    (unitmanager "wavelength" (some "nm") none).value = none ∧
    (unitmanager "wavelength" (some "nm") none).quantity = none ∧
    (unitmanager "wavelength" (some "nm") (some 0)).value = none ∧
    (unitmanager "wavelength" (some "nm") (some 0)).quantity = none :=
  claim_unit_value_amended "wavelength" (some "nm") 280 (by decide)

/-- C10 (confirmed): after the first line, a line that strips to blank is
skipped wherever it occurs — in particular inside the data block: the state
is unchanged (no sample appended) and no error is raised. -/
theorem claim_blank_line_skip (st : ParseState) (l : String) (ls : List String)
    (h1 : st.firstLine = false) (h2 : rstrip l = "") :
    readLine st l = (st, none) ∧ readLinesAux st (l :: ls) = readLinesAux st ls := by
  refine ⟨readLine_blank st l h1 h2, ?_⟩
  simp only [readLinesAux, readLine_blank st l h1 h2]

theorem claim_blank_line_skip_witness :
    readLine inBlockState "  " = (inBlockState, none) ∧
    readLinesAux inBlockState ["  "] = readLinesAux inBlockState [] :=
  claim_blank_line_skip inBlockState "  " [] (by decide) (by decide)

/-- C5 (counterexample): the claim says the common series length equals the
count of lines between the marker and EOF.  On a file whose data block
contains a blank line between two samples, the scan succeeds with two samples
per series while three lines lie between the marker and EOF. -/
theorem claim_series_length_counterexample :
    (readLinesAux initState blankInBlockLines).2 = none ∧
    (readLinesAux initState blankInBlockLines).1.xValues.length = 2 ∧
    (readLinesAux initState blankInBlockLines).1.yValues.length = 2 ∧
    linesBetweenMarkerAndEOF blankInBlockLines = 3 := by decide

/-- C5 (amended): on every error-free scan the x and y series have equal
length, and that common length equals the number of lines after the first
marker line that are non-blank (after stripping) and not themselves the
marker. -/
theorem claim_series_length_amended (lines : List String) (st : ParseState)
    (h : readLinesAux initState lines = (st, none)) :
    st.xValues.length = st.yValues.length ∧
    st.xValues.length = specDataLineCount lines := by
  cases lines with
  | nil =>
    simp only [readLinesAux, Prod.mk.injEq] at h
    obtain ⟨h, -⟩ := h
    subst h
    simp [initState, specDataLineCount]
  | cons l rest =>
    simp only [readLinesAux, readLine_first initState l rfl] at h
    obtain ⟨hx, hy⟩ := readLinesAux_length rest _ st rfl h
    simp only [initState, List.length_nil, Nat.zero_add] at hx hy
    constructor
    · rw [hx, hy]
    · rw [hx, phaseCount_false, phaseCount_true]
      simp [specDataLineCount]

theorem claim_series_length_amended_witness :
    ((readLinesAux initState blankInBlockLines).1.xValues.length =
      (readLinesAux initState blankInBlockLines).1.yValues.length) ∧
    (readLinesAux initState blankInBlockLines).1.xValues.length =
      specDataLineCount blankInBlockLines :=
  claim_series_length_amended blankInBlockLines
    (readLinesAux initState blankInBlockLines).1 (by decide)

/-- C2 (counterexample): the claim says a file in which the marker never
occurs reads without error with empty series.  The one-line file `desc` has
no marker, yet `read` raises (`x_values[0]` on the empty series,
`IndexError`) instead of completing. -/
theorem claim_missing_marker_counterexample :
    (∀ l ∈ ["desc"], rstrip l ≠ sentinel) ∧
    (readFile ["desc"]).error = some ReadError.indexError := by decide

/-- C2 (amended): when no line strips to the marker, an error-free scan
leaves both series empty; the full `read` then does NOT complete without
error — it raises an `IndexError` (the spec's `EmptySeriesError`) when
writing `lowest-observed-wavelength` from `x_values[0]`. -/
theorem claim_missing_marker_amended (lines : List String) (st : ParseState)
    (h1 : ∀ l ∈ lines, rstrip l ≠ sentinel)
    (h2 : readLinesAux initState lines = (st, none))
    (h3 : (extract_metadata st.header).2 = none) :
    st.xValues = [] ∧ st.yValues = [] ∧
    (readFile lines).error = some ReadError.indexError := by
  obtain ⟨hx, hy, -⟩ := readLinesAux_no_marker lines initState st rfl h1 h2
  simp only [initState] at hx hy
  refine ⟨hx, hy, ?_⟩
  rcases hEx : extract_metadata st.header with ⟨md, e2⟩
  rw [hEx] at h3
  simp only at h3
  subst h3
  have hne : ("file" : String) ≠ "" := by decide
  simp [readFile, read, hne, h2, hEx, hx]

theorem claim_missing_marker_amended_witness :
    ({ header := [("Description", "desc")], xValues := [], yValues := [],
       firstLine := false, dataBlock := false } : ParseState).xValues = [] ∧
    ({ header := [("Description", "desc")], xValues := [], yValues := [],
       firstLine := false, dataBlock := false } : ParseState).yValues = [] ∧
    (readFile ["desc"]).error = some ReadError.indexError :=
  claim_missing_marker_amended ["desc"]
    { header := [("Description", "desc")], xValues := [], yValues := [],
      firstLine := false, dataBlock := false }
    (by decide) (by decide) (by decide)

/-- C3 (counterexample): re-reading a file whose second line is the malformed
header line `garbage`, on an instance holding a previous spectrum, raises and
leaves a mixture: the header holds part of the failed parse (the new
`Description`), so it is neither empty/reset nor the intact previous header,
while metadata and data were reset and no longer reflect the previous state. -/
theorem claim_error_state_counterexample :
    rereadBadHeader.error = some (ReadError.malformedHeaderLine "garbage") ∧
    rereadBadHeader.state.header = [("Description", "newdesc")] ∧
    rereadBadHeader.state.header ≠ [] ∧
    rereadBadHeader.state.header ≠ prevLoaded.header ∧
    rereadBadHeader.state.metadata = [] ∧
    rereadBadHeader.state.metadata ≠ prevLoaded.metadata ∧
    rereadBadHeader.state.data = [] ∧
    rereadBadHeader.state.data ≠ prevLoaded.data := by decide

/-- C3 (amended): on a structural parse error the previous state is fully
discarded — metadata and data are reset to empty — but the instance is NOT
left all-empty or intact: the header holds exactly what the failed scan had
parsed before raising (the `Description` and any earlier key/value pairs),
and the error propagates to the caller. -/
theorem claim_error_state_amended (self : UVVisSpectrum)
    (fs : String → Option (List String)) (fname : String) (lines : List String)
    (st : ParseState) (e : ParseError)
    (h1 : fname ≠ "") (h2 : fs fname = some lines)
    (h3 : readLinesAux initState lines = (st, some e)) :
    read self fs (some fname) =
      { state := { filename := some fname, metadata := [], header := st.header, data := [] },
        error := some (wrapParseError e), printedFileError := false } := by
  simp only [read, if_neg h1, h2, h3]

theorem claim_error_state_amended_witness :
    read prevLoaded (fun f => if f = "new" then some ["newdesc", "garbage"] else none)
        (some "new") =
      { state := { filename := some "new", metadata := [],
                   header := [("Description", "newdesc")], data := [] },
        error := some (wrapParseError (ParseError.malformedHeaderLine "garbage")),
        printedFileError := false } :=
  claim_error_state_amended prevLoaded
    (fun f => if f = "new" then some ["newdesc", "garbage"] else none) "new"
    ["newdesc", "garbage"]
    { header := [("Description", "newdesc")], xValues := [], yValues := [],
      firstLine := false, dataBlock := false }
    (ParseError.malformedHeaderLine "garbage")
    (by decide) (by decide) (by decide)

/-- C6 (confirmed): in every successfully extracted metadata, the abscissa
descriptor's label is `wavelength (nm)` when the header's `XAxis mode` value
lowercases to `wavelengths`; it is the raw value itself (with empty unit
string) for any other present value; and it is `x` when the key is absent. -/
theorem claim_abscissa_label (header : Header) (md : Metadata)
    (hmd : extract_metadata header = (md, none)) :
    (∀ v, assocGet header "XAxis mode" = some v → pyLower v = "wavelengths" →
      ∃ a, assocGet md "abscissa" = some (MetaValue.axis a) ∧
        a.label = "wavelength (nm)") ∧
    (∀ v, assocGet header "XAxis mode" = some v → pyLower v ≠ "wavelengths" →
      ∃ a, assocGet md "abscissa" = some (MetaValue.axis a) ∧
        a.label = v ∧ a.unit = "") ∧
    (assocGet header "XAxis mode" = none →
      ∃ a, assocGet md "abscissa" = some (MetaValue.axis a) ∧ a.label = "x") := by
  have hbridge : assocGet md "abscissa" =
      some (MetaValue.axis (xAxisDescriptor header)) := by
    rcases hpre : extractPre header with ⟨md1, e1⟩
    cases e1 with
    | some e =>
      rw [extract_metadata, hpre] at hmd
      simp [mdStep] at hmd
    | none =>
      rw [extract_metadata, hpre] at hmd
      simp only [mdStep] at hmd
      have hpost := extractPost_abscissa header md1
      rw [hmd] at hpost
      exact hpost
  refine ⟨?_, ?_, ?_⟩
  · intro v hv hlow
    refine ⟨xAxisDescriptor header, ?_, ?_⟩
    · exact hbridge
    · simp only [xAxisDescriptor, hv, hlow, if_true]
      decide
  · intro v hv hlow
    refine ⟨xAxisDescriptor header, ?_, ?_⟩
    · exact hbridge
    · simp [xAxisDescriptor, hv, hlow, unitmanager]
  · intro hv
    refine ⟨xAxisDescriptor header, ?_, ?_⟩
    · exact hbridge
    · simp only [xAxisDescriptor, hv]
      decide

theorem claim_abscissa_label_witness :
    (∀ v, assocGet [("XAxis mode", "Wavelengths")] "XAxis mode" = some v →
      pyLower v = "wavelengths" →
      ∃ a, assocGet (extract_metadata [("XAxis mode", "Wavelengths")]).1 "abscissa" =
          some (MetaValue.axis a) ∧ a.label = "wavelength (nm)") ∧
    (∀ v, assocGet [("XAxis mode", "Wavelengths")] "XAxis mode" = some v →
      pyLower v ≠ "wavelengths" →
      ∃ a, assocGet (extract_metadata [("XAxis mode", "Wavelengths")]).1 "abscissa" =
          some (MetaValue.axis a) ∧ a.label = v ∧ a.unit = "") ∧
    (assocGet [("XAxis mode", "Wavelengths")] "XAxis mode" = none →
      ∃ a, assocGet (extract_metadata [("XAxis mode", "Wavelengths")]).1 "abscissa" =
          some (MetaValue.axis a) ∧ a.label = "x") :=
  claim_abscissa_label [("XAxis mode", "Wavelengths")]
    (extract_metadata [("XAxis mode", "Wavelengths")]).1 (by decide)

/-- C7 (counterexample): the claim says parsing fails whenever the value does
not have the fixed six-token shape.  A value with a seventh, junk token does
not match the shape, yet parses successfully, because the code reads fixed
token positions and ignores everything else. -/
theorem claim_date_format_counterexample :
    dateToIsoformat "Thu Feb 27 15:05:24 GMT 2020 extra" =
      some "2020-02-27T15:05:24+00:00" ∧
    (pySplitWs "Thu Feb 27 15:05:24 GMT 2020 extra").length ≠ 6 := by decide

/-- C7 (amended): `Thu Feb 27 15:05:24 GMT 2020` yields exactly
`2020-02-27T15:05:24+00:00`, and a recognized fixed-offset zone renders its
own offset (`EST` gives `-05:00`); parsing fails — for ANY timezone database
`tzdb` standing for pytz's lookup, so in particular for the real one — when
fewer than six whitespace-separated tokens are present, when the month
abbreviation (token index 1) is unrecognized, or when the database does not
know the timezone name (token index 4).  The weekday token is never
validated and tokens beyond the sixth are ignored. -/
theorem claim_date_format_amended (s : String) :
    dateToIsoformat "Thu Feb 27 15:05:24 GMT 2020" =
      some "2020-02-27T15:05:24+00:00" ∧
    dateToIsoformat "Thu Feb 27 15:05:24 EST 2020" =
      some "2020-02-27T15:05:24-05:00" ∧
    (∀ tzdb : String → Option Int, (pySplitWs s).length < 6 →
      dateToIsoformatWith tzdb s = none) ∧
    (∀ tzdb : String → Option Int, ∀ m, (pySplitWs s)[1]? = some m →
      monthFromAbbrev m = none → dateToIsoformatWith tzdb s = none) ∧
    (∀ tzdb : String → Option Int, ∀ z, (pySplitWs s)[4]? = some z →
      tzdb z = none → dateToIsoformatWith tzdb s = none) := by
  refine ⟨by decide, by decide, ?_, ?_, ?_⟩
  · intro tzdb hlen
    have h5 : (pySplitWs s)[5]? = none := by
      rw [List.getElem?_eq_none]
      omega
    simp [dateToIsoformatWith, h5]
  · intro tzdb m hm hmonth
    rcases h5 : (pySplitWs s)[5]? with _ | ys
    · simp [dateToIsoformatWith, h5]
    rcases h2 : (pySplitWs s)[2]? with _ | ds
    · simp [dateToIsoformatWith, h5, hm, h2]
    rcases h3 : (pySplitWs s)[3]? with _ | ts
    · simp [dateToIsoformatWith, h5, hm, h2, h3]
    rcases h4 : (pySplitWs s)[4]? with _ | zs
    · simp [dateToIsoformatWith, h5, hm, h2, h3, h4]
    rcases hy : pyInt ys with _ | year
    · simp [dateToIsoformatWith, h5, hm, h2, h3, h4, hy]
    rcases hd : pyInt ds with _ | day
    · simp [dateToIsoformatWith, h5, hm, h2, h3, h4, hy, hd, hmonth]
    simp [dateToIsoformatWith, h5, hm, h2, h3, h4, hy, hd, hmonth]
  · intro tzdb z hz hzone
    rcases h5 : (pySplitWs s)[5]? with _ | ys
    · simp [dateToIsoformatWith, h5]
    rcases h1 : (pySplitWs s)[1]? with _ | ms
    · simp [dateToIsoformatWith, h5, h1]
    rcases h2 : (pySplitWs s)[2]? with _ | ds
    · simp [dateToIsoformatWith, h5, h1, h2]
    rcases h3 : (pySplitWs s)[3]? with _ | ts
    · simp [dateToIsoformatWith, h5, h1, h2, h3]
    rcases hy : pyInt ys with _ | year
    · simp [dateToIsoformatWith, h5, h1, h2, h3, hz, hy]
    rcases hmon : monthFromAbbrev ms with _ | mon
    · simp [dateToIsoformatWith, h5, h1, h2, h3, hz, hy, hmon]
    rcases hd : pyInt ds with _ | day
    · simp [dateToIsoformatWith, h5, h1, h2, h3, hz, hy, hmon, hd]
    by_cases hrange : (1 ≤ year ∧ year ≤ 9999 ∧ 1 ≤ day ∧
        day ≤ (daysInMonth year.toNat mon : Int))
    · rcases ht : timeFromIsoformat ts with _ | ⟨hh, mm, ss⟩
      · simp [dateToIsoformatWith, h5, h1, h2, h3, hz, hy, hmon, hd, hrange, ht]
      · simp [dateToIsoformatWith, h5, h1, h2, h3, hz, hy, hmon, hd, hrange, ht,
          hzone]
    · simp [dateToIsoformatWith, h5, h1, h2, h3, hz, hy, hmon, hd, hrange]

theorem claim_date_format_amended_witness :
    dateToIsoformatWith pytzTimezone "Thu Feb" = none ∧
    dateToIsoformatWith pytzTimezone "Thu Xyz 27 15:05:24 GMT 2020" = none ∧
    dateToIsoformatWith pytzTimezone "Thu Feb 27 15:05:24 Mars/Phobos 2020" = none :=
  ⟨(claim_date_format_amended "Thu Feb").2.2.1 pytzTimezone (by decide),
   (claim_date_format_amended "Thu Xyz 27 15:05:24 GMT 2020").2.2.2.1 pytzTimezone
     "Xyz" (by decide) (by decide),
   (claim_date_format_amended "Thu Feb 27 15:05:24 Mars/Phobos 2020").2.2.2.2
     pytzTimezone "Mars/Phobos" (by decide) (by decide)⟩

/-- C8 (confirmed): the encoder chain is order-sensitive and never drops a
value silently: `default` returns `some v` exactly when some encoder at
position `i` produces `v` while every earlier encoder refuses, and it fails
(re-raises `TypeError`, the spec's `UnencodableValueError`) exactly when
every encoder in the chain refuses the value. -/
theorem claim_encoder_chain {α β : Type} (encoders : List (α → Option β)) (obj : α) :
    (∀ v, multiEncodersDefault encoders obj = some v ↔
      ∃ (i : Nat) (f : α → Option β), encoders[i]? = some f ∧ f obj = some v ∧
        ∀ j, j < i → ∀ (g : α → Option β), encoders[j]? = some g → g obj = none) ∧
    (multiEncodersDefault encoders obj = none ↔ ∀ e ∈ encoders, e obj = none) := by
  induction encoders with
  | nil =>
    constructor
    · intro v
      simp [multiEncodersDefault]
    · simp [multiEncodersDefault]
  | cons e rest ih =>
    constructor
    · intro v
      rcases he : e obj with _ | w
      · simp only [multiEncodersDefault, he]
        rw [ih.1 v]
        constructor
        · rintro ⟨i, f, hif, hfv, hprev⟩
          refine ⟨i + 1, f, by simpa using hif, hfv, ?_⟩
          intro j hj g hg
          cases j with
          | zero =>
            simp at hg
            rw [← hg]
            exact he
          | succ j' => exact hprev j' (by omega) g (by simpa using hg)
        · rintro ⟨i, f, hif, hfv, hprev⟩
          cases i with
          | zero =>
            simp at hif
            rw [← hif, he] at hfv
            exact absurd hfv (by simp)
          | succ i' =>
            refine ⟨i', f, by simpa using hif, hfv, ?_⟩
            intro j hj g hg
            exact hprev (j + 1) (by omega) g (by simpa using hg)
      · simp only [multiEncodersDefault, he]
        constructor
        · intro hv
          refine ⟨0, e, by simp, by rw [he]; exact hv, ?_⟩
          intro j hj g hg
          omega
        · rintro ⟨i, f, hif, hfv, hprev⟩
          cases i with
          | zero =>
            simp at hif
            rw [← hif, he] at hfv
            exact hfv
          | succ i' =>
            have h0 := hprev 0 (by omega) e (by simp)
            rw [he] at h0
            exact absurd h0 (by simp)
    · rcases he : e obj with _ | w
      · simp only [multiEncodersDefault, he]
        rw [ih.2]
        constructor
        · intro hall x hx
          rcases List.mem_cons.mp hx with rfl | hx'
          · exact he
          · exact hall x hx'
        · intro hall x hx
          exact hall x (List.mem_cons_of_mem e hx)
      · simp only [multiEncodersDefault, he]
        constructor
        · intro habs
          exact absurd habs (by simp)
        · intro hall
          have h0 := hall e (by simp)
          rw [he] at h0
          exact absurd h0 (by simp)

end OceanInsight
